import Mathlib

/-!
# SD-card CSV logger (`src/sdcard.cpp`)

A shallow embedding of `sdcard_init`, `openFile`, `sdcardWriteData` and
`sdcard_close`, together with a small model of the collaborators they call
(the SD filesystem object `MYSD`, the Arduino `File` handle, `strftime`,
`snprintf`), followed by the theorems about them.

Conventions of the embedding
* the three file-scope variables `useSDCard`, `fileSDCard` and the function
  static `counterWrites` are the fields of `State`, next to the card's
  filesystem `fs`;
* every operation returns the new state and the list of calls it issued on
  the collaborators (`Call`), in program order; `ESP_LOGx` calls and pure
  queries (`cardType`, `cardSize`, `exists`) are not recorded;
* the preprocessor conditions are the fields of `Config`;
* what the environment decides (does the mount succeed, which card type is
  reported, does the open succeed, what time is it, what did the particulate
  sensor measure) is an explicit argument (`InitEnv`, `WriteEnv`).
-/

namespace Sdcard

/-! ## Collaborator types -/

/-- Card type reported by `MYSD.cardType()` (the enumeration `sdcard_type_t`
of the SD driver). -/
inductive sdcard_type_t
  | CARD_NONE
  | CARD_MMC
  | CARD_SD
  | CARD_SDHC
  | CARD_UNKNOWN
  deriving DecidableEq, Repr

/-- Open modes of the filesystem library of the ESP32 Arduino core:
`FILE_READ` is "r", `FILE_WRITE` is "w" (create, or truncate to length zero),
`FILE_APPEND` is "a" (create, or keep the content and write at its end). -/
inductive OpenMode
  | FILE_READ
  | FILE_WRITE
  | FILE_APPEND
  deriving DecidableEq, Repr

/-- Content of the card: the text stored under each path, if the path exists. -/
abbrev FileSys := String → Option String

/-- An Arduino `File` object: either empty (default constructed, or closed) or
referring to the open file at a path. Writes go to the end of the file. -/
abbrev File := Option String

/-- A call issued on a collaborator. -/
inductive Call
  | sdBegin
  | sdOpen (path : String) (mode : OpenMode)
  | print (text : String)
  | println
  | flush
  | close
  deriving DecidableEq, Repr

/-- Build-time configuration: what the preprocessor sees. `hasVoltage` stands
for `defined BAT_MEASURE_ADC || defined HAS_PMU`. -/
structure Config where
  SDCARD_FILE_NAME : String
  SDCARD_FILE_HEADER : String
  SDCARD_FILE_HEADER_VOLTAGE : String
  SDCARD_FILE_HEADER_SDS011 : String
  hasVoltage : Bool
  HAS_SDS011 : Bool

/-- Broken-down UTC time, the `struct tm` filled by `gmtime_r`. -/
structure tm where
  tm_sec : Nat
  tm_min : Nat
  tm_hour : Nat
  tm_mday : Nat
  tm_mon : Nat
  tm_year : Int

/-- Ranges of the fields that `gmtime_r` produces. -/
def tm.valid (tt : tm) : Prop :=
  tt.tm_sec ≤ 60 ∧ tt.tm_min ≤ 59 ∧ tt.tm_hour ≤ 23 ∧
  1 ≤ tt.tm_mday ∧ tt.tm_mday ≤ 31 ∧ tt.tm_mon ≤ 11

instance (tt : tm) : Decidable tt.valid := by
  unfold tm.valid; infer_instance

/-- Exact value of a finite `float`, as the fraction `num / den` with a sign
(every finite binary floating-point number is such a fraction, with `den` a
power of two). -/
structure FloatVal where
  neg : Bool
  num : Nat
  den : Nat

/-- The reading stored by `sds011_store`: the struct `sdsStatus_t`. -/
structure sdsStatus_t where
  pm10 : FloatVal
  pm25 : FloatVal

/-- What the environment decides during one `sdcard_init` call. -/
structure InitEnv where
  mount : Bool
  cardType : sdcard_type_t
  cardSize : Nat
  openOk : Bool

/-- What the environment decides during one `sdcardWriteData` call. -/
structure WriteEnv where
  tt : tm
  sds : sdsStatus_t

/-- The module's variables and the card. -/
structure State where
  useSDCard : Bool
  fileSDCard : File
  counterWrites : Int
  fs : FileSys

/-- State of the program at start-up, for a card holding `fs`. -/
def initialState (fs : FileSys) : State :=
  { useSDCard := false, fileSDCard := none, counterWrites := 0, fs := fs }

/-! ## Formatting (`snprintf`, `strftime`) -/

/-- Result of `snprintf(buf, size, fmt, ...)` in `buf`, where `full` is the
complete formatted text: at most `size - 1` characters are stored. -/
def snprintf (size : Nat) (full : String) : String :=
  String.mk (full.data.take (size - 1))

/-- Conversion `%0<w>d` of a natural number. -/
def zeroPad (w n : Nat) : String :=
  String.mk (List.replicate (w - (toString n).length) '0') ++ toString n

/-- Right alignment in a field of minimum width `w`, padded with blanks. -/
def padLeft (w : Nat) (s : String) : String :=
  String.mk (List.replicate (w - s.length) ' ') ++ s

/-- Conversion `%Y` padded to four digits, as `%F` requires. -/
def fmtYear (y : Int) : String :=
  if y < 0 then "-" ++ zeroPad 3 y.natAbs else zeroPad 4 y.toNat

/-- Complete text of the conversion `%FT%TZ`, i.e. `%Y-%m-%dT%H:%M:%SZ`. -/
def fmtTimestamp (tt : tm) : String :=
  fmtYear (tt.tm_year + 1900) ++ "-" ++ zeroPad 2 (tt.tm_mon + 1) ++ "-" ++
    zeroPad 2 tt.tm_mday ++ "T" ++ zeroPad 2 tt.tm_hour ++ ":" ++
    zeroPad 2 tt.tm_min ++ ":" ++ zeroPad 2 tt.tm_sec ++ "Z"

/-- Result of `strftime(buf, maxsize, "%FT%TZ", &tt)` in `buf`. The text is
stored when it fits together with its terminator; otherwise `strftime`
returns 0 and the content is unspecified, which is taken as empty here. -/
def strftime (maxsize : Nat) (tt : tm) : String :=
  if (fmtTimestamp tt).length + 1 ≤ maxsize then fmtTimestamp tt else ""

/-- Number of tenths nearest to `num / den`, ties to even. -/
def roundTenths (num den : Nat) : Nat :=
  let a := 10 * num
  let q := a / den
  let r := a % den
  if 2 * r > den ∨ (2 * r = den ∧ q % 2 = 1) then q + 1 else q

/-- Conversion `%.1f`: sign, integer part, point, one digit. -/
def fmtFixed1 (x : FloatVal) : String :=
  let t := roundTenths x.num x.den
  (if x.neg then "-" else "") ++ toString (t / 10) ++ "." ++ toString (t % 10)

/-- Conversion `%<w>.1f`. -/
def fmtFloat (w : Nat) (x : FloatVal) : String :=
  padLeft w (fmtFixed1 x)

/-! ## The filesystem object `MYSD` and the `File` handle -/

/-- Replace the content stored under `path`. -/
def FileSys.set (fs : FileSys) (path content : String) : FileSys :=
  fun q => if q = path then some content else fs q

/-- Effect of `MYSD.open(path, mode)`: the returned `File` and the card
afterwards. `ok` says whether the driver is able to open the file. -/
def MYSD_open (fs : FileSys) (ok : Bool) (path : String) (mode : OpenMode) :
    File × FileSys :=
  if ok then
    match mode with
    | OpenMode.FILE_READ => if (fs path).isSome then (some path, fs) else (none, fs)
    | OpenMode.FILE_WRITE => (some path, fs.set path "")
    | OpenMode.FILE_APPEND => (some path, fs.set path ((fs path).getD ""))
  else (none, fs)

/-- Effect on the card of writing `text` through the handle `f`: an empty
handle writes nothing. -/
def File.write (f : File) (text : String) (fs : FileSys) : FileSys :=
  match f with
  | none => fs
  | some path =>
    match fs path with
    | none => fs
    | some c => fs.set path (c ++ text)

/-- A state together with the calls issued so far by the running operation. -/
abbrev Run := State × List Call

/-- The call `fileSDCard.print(text)`. -/
def file_print (text : String) (r : Run) : Run :=
  ({ r.1 with fs := File.write r.1.fileSDCard text r.1.fs }, r.2 ++ [Call.print text])

/-- The call `fileSDCard.println()`. -/
def file_println (r : Run) : Run :=
  ({ r.1 with fs := File.write r.1.fileSDCard "\r\n" r.1.fs }, r.2 ++ [Call.println])

/-- The call `fileSDCard.flush()`. -/
def file_flush (r : Run) : Run :=
  (r.1, r.2 ++ [Call.flush])

/-- The call `fileSDCard.close()`: the handle becomes empty. -/
def file_close (r : Run) : Run :=
  ({ r.1 with fileSDCard := none }, r.2 ++ [Call.close])

/-! ## The module's functions -/

/-- The function `openFile` (lines 116-156). The `File` returned by
`MYSD.open` is only tested in the condition and then dropped; `fileSDCard`
is not assigned. -/
def openFile (cfg : Config) (env : InitEnv) (r : Run) : Run :=
  let s : State := { r.1 with useSDCard := false }
  let bufferFilename := snprintf 30 ("/" ++ cfg.SDCARD_FILE_NAME ++ ".csv")
  let opened := MYSD_open s.fs env.openOk bufferFilename OpenMode.FILE_WRITE
  let r : Run := ({ s with fs := opened.2 },
    r.2 ++ [Call.sdOpen bufferFilename OpenMode.FILE_WRITE])
  let r : Run := if opened.1.isSome then ({ r.1 with useSDCard := true }, r.2) else r
  if r.1.useSDCard then
    let r := file_print cfg.SDCARD_FILE_HEADER r
    let r := if cfg.hasVoltage then file_print cfg.SDCARD_FILE_HEADER_VOLTAGE r else r
    let r := if cfg.HAS_SDS011 then file_print cfg.SDCARD_FILE_HEADER_SDS011 r else r
    file_println r
  else r

/-- The function `sdcard_init` (lines 18-69): the returned flag, the new state
and the calls issued. -/
def sdcard_init (cfg : Config) (create : Bool) (env : InitEnv) (s : State) :
    Bool × State × List Call :=
  let _unused := create
  let r : Run := ({ s with useSDCard := env.mount }, [Call.sdBegin])
  if r.1.useSDCard then
    let cardType := env.cardType
    if cardType = sdcard_type_t.CARD_NONE then (false, r)
    else
      let r := openFile cfg env r
      (true, r)
  else (false, r)

/-- The function `sdcard_close` (lines 71-75). -/
def sdcard_close (s : State) : Run :=
  let r : Run := (s, [])
  let r := file_flush r
  file_close r

/-- The function `sdcardWriteData` (lines 77-114). The three arguments are
`uint16_t`. -/
def sdcardWriteData (cfg : Config) (env : WriteEnv) (noWifi noBle voltage : Nat)
    (s : State) : Run :=
  let noWifi := noWifi % 65536
  let noBle := noBle % 65536
  let voltage := voltage % 65536
  let tt := env.tt
  if !s.useSDCard then (s, [])
  else
    let r : Run := (s, [])
    let tempBuffer := strftime 21 tt
    let r := file_print tempBuffer r
    let tempBuffer := snprintf 21 ("," ++ toString noWifi ++ "," ++ toString noBle)
    let r := file_print tempBuffer r
    let r :=
      if cfg.hasVoltage then
        let tempBuffer := snprintf 21 ("," ++ toString voltage)
        file_print tempBuffer r
      else r
    let r :=
      if cfg.HAS_SDS011 then
        let sds := env.sds
        let tempBuffer :=
          snprintf 21 ("," ++ fmtFloat 5 sds.pm10 ++ "," ++ fmtFloat 4 sds.pm25)
        file_print tempBuffer r
      else r
    let r := file_println r
    let counterWrites := r.1.counterWrites + 1
    if counterWrites > 2 then
      let r := file_flush r
      ({ r.1 with counterWrites := 0 }, r.2)
    else ({ r.1 with counterWrites := counterWrites }, r.2)

/-! ## Sequences of calls -/

/-- One call of the module's interface by its user. -/
inductive Op
  | init (create : Bool) (env : InitEnv)
  | write (env : WriteEnv) (noWifi noBle voltage : Nat)
  | close

/-- Effect of one interface call. -/
def step (cfg : Config) (s : State) : Op → Run
  | Op.init create env => (sdcard_init cfg create env s).2
  | Op.write env noWifi noBle voltage => sdcardWriteData cfg env noWifi noBle voltage s
  | Op.close => sdcard_close s

/-- State after a sequence of interface calls. -/
def run (cfg : Config) (s : State) : List Op → State
  | [] => s
  | op :: ops => run cfg (step cfg s op).1 ops

/-- For the `sdcardWriteData` calls of a sequence that find `useSDCard` set,
in order: whether the call flushed, and `counterWrites` after the call. -/
def activeWrites (cfg : Config) (s : State) : List Op → List (Bool × Int)
  | [] => []
  | Op.write env noWifi noBle voltage :: ops =>
    let r := sdcardWriteData cfg env noWifi noBle voltage s
    if s.useSDCard then
      (decide (Call.flush ∈ r.2), r.1.counterWrites) :: activeWrites cfg r.1 ops
    else activeWrites cfg r.1 ops
  | op :: ops => activeWrites cfg (step cfg s op).1 ops

/-- Calls issued by each interface call of a sequence, in order. -/
def callsOf (cfg : Config) (s : State) : List Op → List (List Call)
  | [] => []
  | op :: ops => (step cfg s op).2 :: callsOf cfg (step cfg s op).1 ops

/-- Text handed to the handle by a list of calls: the arguments of the
`print` calls, and a line break for each `println`. -/
def printedText : List Call → String
  | [] => ""
  | Call.print text :: cs => text ++ printedText cs
  | Call.println :: cs => "\r\n" ++ printedText cs
  | _ :: cs => printedText cs

/-- Number of `flush` calls in a list of calls. -/
def flushCount (cs : List Call) : Nat :=
  cs.count Call.flush

/-! ## Sample inputs -/

/-- A configuration without optional columns. -/
def baseConfig : Config :=
  { SDCARD_FILE_NAME := "paxcount"
    SDCARD_FILE_HEADER := "timestamp,wifi_fail,ble_fail"
    SDCARD_FILE_HEADER_VOLTAGE := ",voltage"
    SDCARD_FILE_HEADER_SDS011 := ",PM10,PM25"
    hasVoltage := false
    HAS_SDS011 := false }

/-- The instant 2024-01-01T00:00:00Z. -/
def newYear2024 : tm :=
  { tm_sec := 0, tm_min := 0, tm_hour := 0, tm_mday := 1, tm_mon := 0, tm_year := 124 }

/-- The readings PM10 = 12.3 and PM2.5 = 4.5, as the nearest `float` values
`12897485 / 2^20` and `9 / 2`. -/
def sampleSds : sdsStatus_t :=
  { pm10 := { neg := false, num := 12897485, den := 1048576 }
    pm25 := { neg := false, num := 9, den := 2 } }

/-- Environment of a write at 2024-01-01T00:00:00Z with the sample readings. -/
def sampleWriteEnv : WriteEnv :=
  { tt := newYear2024, sds := sampleSds }

/-- An empty card. -/
def emptyCard : FileSys := fun _ => none

/-- The configuration with the voltage column only. -/
def voltageConfig : Config :=
  { baseConfig with hasVoltage := true }

/-- A state in which logging is active and two records await their flush. -/
def activeState : State :=
  { useSDCard := true, fileSDCard := none, counterWrites := 2, fs := emptyCard }

/-- The configuration with the particulate column only. -/
def sdsConfig : Config :=
  { baseConfig with HAS_SDS011 := true }

/-- The readings PM10 = 12.3 and PM2.5 = 4.5 as exact decimal fractions. -/
def decimalSds : sdsStatus_t :=
  { pm10 := { neg := false, num := 123, den := 10 }
    pm25 := { neg := false, num := 45, den := 10 } }

/-- The instant 2024-03-07T14:25:36Z, whose six fields all differ. -/
def sampleInstant : tm :=
  { tm_sec := 36, tm_min := 25, tm_hour := 14, tm_mday := 7, tm_mon := 2, tm_year := 124 }

/-- Environment of a write at 2024-03-07T14:25:36Z with the sample readings. -/
def instantWriteEnv : WriteEnv :=
  { tt := sampleInstant, sds := sampleSds }

/-- A state in which logging is active, one record awaits its flush and the
global `fileSDCard` refers to the open log file of a used card. -/
def boundState : State :=
  { useSDCard := true, fileSDCard := some "/paxcount.csv", counterWrites := 1,
    fs := FileSys.set (fun _ => none) "/paxcount.csv"
      "timestamp,wifi_fail,ble_fail\r\n2023-12-31T23:59:00Z,1,1\r\n" }

/-- Two consecutive `sdcardWriteData` calls. -/
def twoWrites : List Op :=
  [Op.write instantWriteEnv 2 0 0, Op.write instantWriteEnv 5 1 0]

/-- A mount that succeeds on an SDHC card whose file can be opened. -/
def goodInit : InitEnv :=
  { mount := true, cardType := sdcard_type_t.CARD_SDHC, cardSize := 4096, openOk := true }

/-- A mount that fails. -/
def noCardInit : InitEnv :=
  { mount := false, cardType := sdcard_type_t.CARD_NONE, cardSize := 0, openOk := false }

/-- A mount that succeeds while the driver reports the card type "none". -/
def cardNoneInit : InitEnv :=
  { mount := true, cardType := sdcard_type_t.CARD_NONE, cardSize := 0, openOk := true }

/-- A mount that succeeds on a card on which the file cannot be opened. -/
def openFailsInit : InitEnv :=
  { mount := true, cardType := sdcard_type_t.CARD_SD, cardSize := 4096, openOk := false }

/-- A sequence of interface calls with a close, a failed open and a re-init. -/
def sampleOps : List Op :=
  [Op.init true goodInit, Op.write sampleWriteEnv 2 0 0, Op.write sampleWriteEnv 2 0 0,
   Op.close, Op.write sampleWriteEnv 2 0 0, Op.init false openFailsInit,
   Op.write sampleWriteEnv 2 0 0, Op.init true goodInit, Op.write sampleWriteEnv 2 0 0,
   Op.write sampleWriteEnv 2 0 0]

/-- Three consecutive `sdcardWriteData` calls. -/
def threeWrites : List Op :=
  [Op.write sampleWriteEnv 2 0 0, Op.write sampleWriteEnv 2 0 0, Op.write sampleWriteEnv 2 0 0]

/-- A card that already holds a log with one header and one record. -/
def usedCard : FileSys :=
  emptyCard.set "/paxcount.csv"
    "timestamp,wifi_fail,ble_fail\r\n2023-12-31T23:59:00Z,1,1\r\n"

/-! ## Specification-side vocabulary -/

/-- What the specification expects of the `k`-th `sdcardWriteData` call that
finds logging active (`k` counted from 1): it flushes exactly when `k` is a
multiple of 3, and the counter is `k mod 3` afterwards. -/
def expectedObs (k : Nat) : Bool × Int :=
  (decide (k % 3 = 0), ((k % 3 : Nat) : Int))

/-- Whether an interface call is a `sdcardWriteData` call. -/
def Op.isWrite : Op → Bool
  | Op.write _ _ _ _ => true
  | _ => false


/-- The header line as the specification describes it: base text, then the
voltage text when the voltage column is compiled in, then the particulate
text when that column is compiled in, then one line break. -/
def headerCalls (cfg : Config) : List Call :=
  [Call.print cfg.SDCARD_FILE_HEADER] ++
    (if cfg.hasVoltage then [Call.print cfg.SDCARD_FILE_HEADER_VOLTAGE] else []) ++
    (if cfg.HAS_SDS011 then [Call.print cfg.SDCARD_FILE_HEADER_SDS011] else []) ++
    [Call.println]

/-- Calls made on the file handle, as opposed to calls made on `MYSD`. -/
def isHandleCall : Call → Bool
  | Call.print _ => true
  | Call.println => true
  | Call.flush => true
  | Call.close => true
  | _ => false

/-- Rendering of a number of tenths with exactly one decimal place. -/
def oneDecimal (t : Nat) : String :=
  toString (t / 10) ++ "." ++ toString (t % 10)

/-- The number of tenths `t` is a nearest one to the reading `x`:
the distance between `t / 10` and `num / den` is at most one twentieth. -/
def nearestTenths (t : Nat) (x : FloatVal) : Prop :=
  2 * (10 * x.num - t * x.den) ≤ x.den ∧ 2 * (t * x.den - 10 * x.num) ≤ x.den

/-- Calls that hand text to the file handle. -/
def isPrintCall : Call → Bool
  | Call.print _ => true
  | Call.println => true
  | _ => false

/-- Value of a decimal digit character. -/
def digitVal (c : Char) : Nat :=
  c.toNat - 48

/-- Number denoted by a list of decimal digits, most significant first. -/
def decimalValue (l : List Char) : Nat :=
  l.foldl (fun acc c => 10 * acc + digitVal c) 0

/-- Reading of a text of the form `YYYY-MM-DDTHH:MM:SSZ`: the year, month,
day, hour, minute and second it denotes, in this order; nothing for a text
that is not of this form. -/
def decodeTimestamp (s : String) : Option (Nat × Nat × Nat × Nat × Nat × Nat) :=
  match s.data with
  | [y1, y2, y3, y4, '-', m1, m2, '-', d1, d2, 'T', h1, h2, ':', n1, n2, ':', s1, s2, 'Z'] =>
    if [y1, y2, y3, y4, m1, m2, d1, d2, h1, h2, n1, n2, s1, s2].all Char.isDigit then
      some (decimalValue [y1, y2, y3, y4], decimalValue [m1, m2], decimalValue [d1, d2],
        decimalValue [h1, h2], decimalValue [n1, n2], decimalValue [s1, s2])
    else none
  | _ => none

/-- The pattern `YYYY-MM-DDTHH:MM:SSZ`: twenty characters, digits in the
places of the letters Y, M, D, H, M, S. -/
def isTimestamp (s : String) : Bool :=
  match s.data with
  | [y1, y2, y3, y4, '-', m1, m2, '-', d1, d2, 'T', h1, h2, ':', n1, n2, ':', s1, s2, 'Z'] =>
    [y1, y2, y3, y4, m1, m2, d1, d2, h1, h2, n1, n2, s1, s2].all Char.isDigit
  | _ => false

/-! ## Lemmas on formatting -/

theorem digitChar_isDigit : ∀ k, k < 10 → (Nat.digitChar k).isDigit = true := by
  decide

theorem toDigitsCore_isDigit : ∀ (fuel n : Nat) (ds : List Char),
    (∀ c ∈ ds, c.isDigit = true) →
    ∀ c ∈ Nat.toDigitsCore 10 fuel n ds, c.isDigit = true := by
  intro fuel
  induction fuel with
  | zero => intro n ds h; simpa [Nat.toDigitsCore] using h
  | succ fuel ih =>
    intro n ds h
    have hd : (Nat.digitChar (n % 10)).isDigit = true :=
      digitChar_isDigit _ (Nat.mod_lt _ (by decide))
    have hds : ∀ c ∈ Nat.digitChar (n % 10) :: ds, c.isDigit = true := by
      intro c hc
      rcases List.mem_cons.1 hc with rfl | hc
      · exact hd
      · exact h c hc
    unfold Nat.toDigitsCore
    by_cases h0 : n / 10 = 0
    · simpa [h0] using hds
    · simpa [h0] using ih (n / 10) _ hds

theorem toString_data (n : Nat) : (toString n).data = Nat.toDigits 10 n := rfl

theorem toString_isDigit (n : Nat) : ∀ c ∈ (toString n).data, c.isDigit = true := by
  rw [toString_data]
  exact toDigitsCore_isDigit _ _ _ (by simp)

theorem toString_length_le (n e : Nat) (he : 0 < e) (h : n < 10 ^ e) :
    (toString n).length ≤ e :=
  Nat.repr_length n e he h

theorem zeroPad_length (w n : Nat) (hw : 0 < w) (h : n < 10 ^ w) :
    (zeroPad w n).data.length = w := by
  have hl := toString_length_le n w hw h
  simp only [zeroPad, String.data_append, List.length_append, List.length_replicate]
  have : (toString n).data.length = (toString n).length := rfl
  omega

theorem zeroPad_isDigit (w n : Nat) : ∀ c ∈ (zeroPad w n).data, c.isDigit = true := by
  intro c hc
  simp only [zeroPad, String.data_append, List.mem_append] at hc
  rcases hc with hc | hc
  · have := List.eq_of_mem_replicate hc
    subst this
    decide
  · exact toString_isDigit n c hc

theorem digitVal_digitChar : ∀ k, k < 10 → digitVal (Nat.digitChar k) = k := by
  decide

theorem decimalValue_append_singleton (xs : List Char) (c : Char) :
    decimalValue (xs ++ [c]) = 10 * decimalValue xs + digitVal c := by
  simp [decimalValue, List.foldl_append]

theorem toDigitsCore_value : ∀ (fuel n : Nat) (ds : List Char), n < fuel →
    ∃ xs, Nat.toDigitsCore 10 fuel n ds = xs ++ ds ∧ decimalValue xs = n := by
  intro fuel
  induction fuel with
  | zero => intro n ds h; omega
  | succ fuel ih =>
    intro n ds h
    have hd : digitVal (Nat.digitChar (n % 10)) = n % 10 :=
      digitVal_digitChar _ (Nat.mod_lt _ (by decide))
    unfold Nat.toDigitsCore
    by_cases h0 : n / 10 = 0
    · refine ⟨[Nat.digitChar (n % 10)], by simp [h0], ?_⟩
      have : decimalValue [Nat.digitChar (n % 10)] = digitVal (Nat.digitChar (n % 10)) := by
        simp [decimalValue]
      rw [this, hd]
      omega
    · obtain ⟨xs, hx, hv⟩ := ih (n / 10) (Nat.digitChar (n % 10) :: ds) (by omega)
      refine ⟨xs ++ [Nat.digitChar (n % 10)], by simp [h0, hx], ?_⟩
      rw [decimalValue_append_singleton, hv, hd]
      omega

theorem toString_value (n : Nat) : decimalValue (toString n).data = n := by
  rw [toString_data]
  obtain ⟨xs, hx, hv⟩ := toDigitsCore_value (n + 1) n [] (by omega)
  have : Nat.toDigits 10 n = xs := by
    simpa [Nat.toDigits] using hx
  rw [this, hv]

theorem decimalValue_zeros (k : Nat) (l : List Char) :
    decimalValue (List.replicate k '0' ++ l) = decimalValue l := by
  induction k with
  | zero => simp
  | succ k ih =>
    have h0 : digitVal '0' = 0 := by decide
    simp only [decimalValue, List.replicate_succ, List.cons_append, List.foldl_cons, h0] at ih ⊢
    simpa using ih

theorem zeroPad_value (w n : Nat) : decimalValue (zeroPad w n).data = n := by
  simp only [zeroPad, String.data_append]
  rw [decimalValue_zeros, toString_value]

theorem zeroPad_two (n : Nat) (h : n < 100) :
    ∃ a b, (zeroPad 2 n).data = [a, b] ∧ a.isDigit = true ∧ b.isDigit = true := by
  have hl := zeroPad_length 2 n (by decide) (by simpa using h)
  have hd := zeroPad_isDigit 2 n
  obtain ⟨a, b, hab⟩ := List.length_eq_two.1 hl
  refine ⟨a, b, hab, hd a (by simp [hab]), hd b (by simp [hab])⟩

theorem zeroPad_four (n : Nat) (h : n < 10000) :
    ∃ a b c d, (zeroPad 4 n).data = [a, b, c, d] ∧ a.isDigit = true ∧ b.isDigit = true ∧
      c.isDigit = true ∧ d.isDigit = true := by
  have hl := zeroPad_length 4 n (by decide) (by simpa using h)
  have hd := zeroPad_isDigit 4 n
  match hz : (zeroPad 4 n).data, hl with
  | [a, b, c, d], _ =>
    rw [hz] at hd
    exact ⟨a, b, c, d, rfl, hd a (by simp), hd b (by simp), hd c (by simp), hd d (by simp)⟩

theorem fmtTimestamp_isTimestamp (tt : tm) (hv : tt.valid)
    (h0 : 0 ≤ tt.tm_year + 1900) (h1 : tt.tm_year + 1900 ≤ 9999) :
    isTimestamp (fmtTimestamp tt) = true ∧ (fmtTimestamp tt).length = 20 ∧
    decodeTimestamp (fmtTimestamp tt) =
      some ((tt.tm_year + 1900).toNat, tt.tm_mon + 1, tt.tm_mday, tt.tm_hour, tt.tm_min,
        tt.tm_sec) := by
  obtain ⟨hs, hmi, hh, _, hd, hmo⟩ := hv
  have hy : ¬ tt.tm_year + 1900 < 0 := by omega
  obtain ⟨y1, y2, y3, y4, ey, dy1, dy2, dy3, dy4⟩ :=
    zeroPad_four (tt.tm_year + 1900).toNat (by omega)
  obtain ⟨m1, m2, em, dm1, dm2⟩ := zeroPad_two (tt.tm_mon + 1) (by omega)
  obtain ⟨d1, d2, ed, dd1, dd2⟩ := zeroPad_two tt.tm_mday (by omega)
  obtain ⟨h1, h2, eh, dh1, dh2⟩ := zeroPad_two tt.tm_hour (by omega)
  obtain ⟨n1, n2, en, dn1, dn2⟩ := zeroPad_two tt.tm_min (by omega)
  obtain ⟨s1, s2, es, ds1, ds2⟩ := zeroPad_two tt.tm_sec (by omega)
  have hdata : (fmtTimestamp tt).data =
      [y1, y2, y3, y4, '-', m1, m2, '-', d1, d2, 'T', h1, h2, ':', n1, n2, ':', s1, s2, 'Z'] := by
    simp [fmtTimestamp, fmtYear, hy, String.data_append, ey, em, ed, eh, en, es]
  have vy : decimalValue [y1, y2, y3, y4] = (tt.tm_year + 1900).toNat := by
    rw [← ey]; exact zeroPad_value _ _
  have vm : decimalValue [m1, m2] = tt.tm_mon + 1 := by rw [← em]; exact zeroPad_value _ _
  have vd : decimalValue [d1, d2] = tt.tm_mday := by rw [← ed]; exact zeroPad_value _ _
  have vh : decimalValue [h1, h2] = tt.tm_hour := by rw [← eh]; exact zeroPad_value _ _
  have vn : decimalValue [n1, n2] = tt.tm_min := by rw [← en]; exact zeroPad_value _ _
  have vs : decimalValue [s1, s2] = tt.tm_sec := by rw [← es]; exact zeroPad_value _ _
  refine ⟨?_, ?_, ?_⟩
  · simp [isTimestamp, hdata, dy1, dy2, dy3, dy4, dm1, dm2, dd1, dd2, dh1, dh2, dn1, dn2,
      ds1, ds2]
  · show (fmtTimestamp tt).data.length = 20
    rw [hdata]; rfl
  · simp only [decodeTimestamp, hdata, List.all_cons, List.all_nil, dy1, dy2, dy3, dy4, dm1,
      dm2, dd1, dd2, dh1, dh2, dn1, dn2, ds1, ds2, Bool.and_self, if_true, vy, vm, vd, vh,
      vn, vs]

theorem snprintf_of_fits (size : Nat) (full : String) (h : full.length + 1 ≤ size) :
    snprintf size full = full := by
  have hl : full.data.length = full.length := rfl
  simp only [snprintf]
  rw [List.take_of_length_le (by omega)]

/-! ## Lemmas on the module's functions -/

theorem write_inactive (cfg : Config) (env : WriteEnv) (a b v : Nat) (s : State)
    (h : s.useSDCard = false) : sdcardWriteData cfg env a b v s = (s, []) := by
  simp [sdcardWriteData, h]

theorem write_calls (cfg : Config) (env : WriteEnv) (a b v : Nat) (s : State)
    (h : s.useSDCard = true) :
    (sdcardWriteData cfg env a b v s).2 =
      [Call.print (strftime 21 env.tt),
       Call.print (snprintf 21 ("," ++ toString (a % 65536) ++ "," ++ toString (b % 65536)))] ++
      (if cfg.hasVoltage then [Call.print (snprintf 21 ("," ++ toString (v % 65536)))]
        else []) ++
      (if cfg.HAS_SDS011 then
        [Call.print (snprintf 21
          ("," ++ fmtFloat 5 env.sds.pm10 ++ "," ++ fmtFloat 4 env.sds.pm25))]
        else []) ++
      [Call.println] ++
      (if s.counterWrites + 1 > 2 then [Call.flush] else []) := by
  cases hv : cfg.hasVoltage <;> cases hp : cfg.HAS_SDS011 <;>
    by_cases hc : s.counterWrites + 1 > 2 <;>
    simp [sdcardWriteData, h, hv, hp, hc, file_print, file_println, file_flush]

theorem write_counter (cfg : Config) (env : WriteEnv) (a b v : Nat) (s : State) :
    (sdcardWriteData cfg env a b v s).1.counterWrites =
      if s.useSDCard then (if s.counterWrites + 1 > 2 then 0 else s.counterWrites + 1)
      else s.counterWrites := by
  cases h : s.useSDCard <;> cases hv : cfg.hasVoltage <;> cases hp : cfg.HAS_SDS011 <;>
    by_cases hc : s.counterWrites + 1 > 2 <;>
    simp [sdcardWriteData, h, hv, hp, hc, file_print, file_println, file_flush]

theorem write_useSDCard (cfg : Config) (env : WriteEnv) (a b v : Nat) (s : State) :
    (sdcardWriteData cfg env a b v s).1.useSDCard = s.useSDCard := by
  cases h : s.useSDCard <;> cases hv : cfg.hasVoltage <;> cases hp : cfg.HAS_SDS011 <;>
    by_cases hc : s.counterWrites + 1 > 2 <;>
    simp [sdcardWriteData, h, hv, hp, hc, file_print, file_println, file_flush]

theorem write_fileSDCard (cfg : Config) (env : WriteEnv) (a b v : Nat) (s : State) :
    (sdcardWriteData cfg env a b v s).1.fileSDCard = s.fileSDCard := by
  cases h : s.useSDCard <;> cases hv : cfg.hasVoltage <;> cases hp : cfg.HAS_SDS011 <;>
    by_cases hc : s.counterWrites + 1 > 2 <;>
    simp [sdcardWriteData, h, hv, hp, hc, file_print, file_println, file_flush]

theorem write_fs_of_empty_handle (cfg : Config) (env : WriteEnv) (a b v : Nat) (s : State)
    (hf : s.fileSDCard = none) : (sdcardWriteData cfg env a b v s).1.fs = s.fs := by
  cases h : s.useSDCard <;> cases hv : cfg.hasVoltage <;> cases hp : cfg.HAS_SDS011 <;>
    by_cases hc : s.counterWrites + 1 > 2 <;>
    simp [sdcardWriteData, h, hv, hp, hc, hf, file_print, file_println, file_flush,
      File.write]

theorem init_calls (cfg : Config) (create : Bool) (env : InitEnv) (s : State) :
    (sdcard_init cfg create env s).2.2 =
      [Call.sdBegin] ++
      (if env.mount = true ∧ env.cardType ≠ sdcard_type_t.CARD_NONE then
        [Call.sdOpen (snprintf 30 ("/" ++ cfg.SDCARD_FILE_NAME ++ ".csv")) OpenMode.FILE_WRITE]
          ++ (if env.openOk then headerCalls cfg else [])
       else []) := by
  cases hm : env.mount <;> by_cases hc : env.cardType = sdcard_type_t.CARD_NONE <;>
    cases ho : env.openOk <;> cases hv : cfg.hasVoltage <;> cases hp : cfg.HAS_SDS011 <;>
    simp [sdcard_init, openFile, MYSD_open, headerCalls, hm, hc, ho, hv, hp, file_print,
      file_println]

theorem init_counter (cfg : Config) (create : Bool) (env : InitEnv) (s : State) :
    (sdcard_init cfg create env s).2.1.counterWrites = s.counterWrites := by
  cases hm : env.mount <;> by_cases hc : env.cardType = sdcard_type_t.CARD_NONE <;>
    cases ho : env.openOk <;> cases hv : cfg.hasVoltage <;> cases hp : cfg.HAS_SDS011 <;>
    simp [sdcard_init, openFile, MYSD_open, hm, hc, ho, hv, hp, file_print, file_println]

theorem init_fileSDCard (cfg : Config) (create : Bool) (env : InitEnv) (s : State) :
    (sdcard_init cfg create env s).2.1.fileSDCard = s.fileSDCard := by
  cases hm : env.mount <;> by_cases hc : env.cardType = sdcard_type_t.CARD_NONE <;>
    cases ho : env.openOk <;> cases hv : cfg.hasVoltage <;> cases hp : cfg.HAS_SDS011 <;>
    simp [sdcard_init, openFile, MYSD_open, hm, hc, ho, hv, hp, file_print, file_println]

theorem init_useSDCard (cfg : Config) (create : Bool) (env : InitEnv) (s : State) :
    (sdcard_init cfg create env s).2.1.useSDCard =
      (env.mount && (env.cardType = sdcard_type_t.CARD_NONE || env.openOk)) := by
  cases hm : env.mount <;> by_cases hc : env.cardType = sdcard_type_t.CARD_NONE <;>
    cases ho : env.openOk <;> cases hv : cfg.hasVoltage <;> cases hp : cfg.HAS_SDS011 <;>
    simp [sdcard_init, openFile, MYSD_open, hm, hc, ho, hv, hp, file_print, file_println]

theorem close_fields (s : State) :
    (sdcard_close s).1.useSDCard = s.useSDCard ∧
    (sdcard_close s).1.counterWrites = s.counterWrites ∧
    (sdcard_close s).1.fileSDCard = none ∧
    (sdcard_close s).1.fs = s.fs ∧
    (sdcard_close s).2 = [Call.flush, Call.close] := by
  simp [sdcard_close, file_flush, file_close]

theorem step_counter_range (cfg : Config) (s : State) (op : Op)
    (h : 0 ≤ s.counterWrites ∧ s.counterWrites ≤ 2) :
    0 ≤ (step cfg s op).1.counterWrites ∧ (step cfg s op).1.counterWrites ≤ 2 := by
  cases op with
  | init create env => simpa [step, init_counter] using h
  | write env a b v =>
    simp only [step, write_counter]
    split_ifs <;> omega
  | close => simpa [step, (close_fields s).2.1] using h

theorem run_counter_range (cfg : Config) (ops : List Op) : ∀ s : State,
    (0 ≤ s.counterWrites ∧ s.counterWrites ≤ 2) →
    0 ≤ (run cfg s ops).counterWrites ∧ (run cfg s ops).counterWrites ≤ 2 := by
  induction ops with
  | nil => intro s h; simpa [run] using h
  | cons op ops ih =>
    intro s h
    simpa [run] using ih _ (step_counter_range cfg s op h)

theorem activeWrites_from (cfg : Config) (ops : List Op) : ∀ (s : State) (k : Nat),
    s.counterWrites = ((k % 3 : Nat) : Int) →
    activeWrites cfg s ops =
      (List.range (activeWrites cfg s ops).length).map (fun i => expectedObs (k + i + 1)) := by
  induction ops with
  | nil => intro s k _; simp [activeWrites]
  | cons op ops ih =>
    intro s k hk
    cases op with
    | init create env =>
      simp only [activeWrites, step]
      exact ih _ k (by rw [init_counter]; exact hk)
    | close =>
      simp only [activeWrites, step]
      exact ih _ k (by rw [(close_fields s).2.1]; exact hk)
    | write env a b v =>
      cases hu : s.useSDCard with
      | false =>
        simp only [activeWrites, hu, Bool.false_eq_true, if_false]
        rw [write_inactive cfg env a b v s hu]
        exact ih s k hk
      | true =>
        have hc : (sdcardWriteData cfg env a b v s).1.counterWrites
            = (((k + 1) % 3 : Nat) : Int) := by
          rw [write_counter, hu, hk]
          simp only [if_true]
          split_ifs <;> omega
        have hf : decide (Call.flush ∈ (sdcardWriteData cfg env a b v s).2)
            = decide ((k + 1) % 3 = 0) := by
          rw [write_calls cfg env a b v s hu, hk]
          cases cfg.hasVoltage <;> cases cfg.HAS_SDS011 <;>
            by_cases h3 : ((k % 3 : Nat) : Int) + 1 > 2 <;> simp [h3] <;> omega
        have ih2 := ih (sdcardWriteData cfg env a b v s).1 (k + 1) hc
        simp only [activeWrites, hu, if_true, List.length_cons, List.range_succ_eq_map,
          List.map_cons, List.map_map]
        rw [hf, hc]
        congr 1
        rw [ih2]
        simp only [List.length_map, List.length_range]
        apply List.map_congr_left
        intro i _
        simp only [Function.comp, Nat.succ_eq_add_one]
        congr 1
        omega

theorem write_flushCount (cfg : Config) (env : WriteEnv) (a b v : Nat) (s : State)
    (h : s.useSDCard = true) :
    flushCount (sdcardWriteData cfg env a b v s).2 =
      if s.counterWrites + 1 > 2 then 1 else 0 := by
  rw [write_calls cfg env a b v s h]
  cases cfg.hasVoltage <;> cases cfg.HAS_SDS011 <;>
    by_cases hc : s.counterWrites + 1 > 2 <;> simp [flushCount, hc]

theorem printedText_append (l1 l2 : List Call) :
    printedText (l1 ++ l2) = printedText l1 ++ printedText l2 := by
  induction l1 with
  | nil => simp [printedText]
  | cons c cs ih => cases c <;> simp [printedText, ih, String.append_assoc]

theorem run_writes_after_close (cfg : Config) (ws : List Op) : ∀ t : State,
    t.fileSDCard = none → (∀ op ∈ ws, op.isWrite = true) →
    (run cfg t ws).fs = t.fs ∧ (run cfg t ws).useSDCard = t.useSDCard ∧
    (t.useSDCard = false →
      (run cfg t ws).counterWrites = t.counterWrites ∧
      callsOf cfg t ws = ws.map (fun _ => [])) := by
  induction ws with
  | nil => intro t _ _; simp [run, callsOf]
  | cons op ws ih =>
    intro t ht hws
    have hop : op.isWrite = true := hws op (by simp)
    have hrest : ∀ o ∈ ws, o.isWrite = true := fun o ho => hws o (by simp [ho])
    cases op with
    | init create env => simp [Op.isWrite] at hop
    | close => simp [Op.isWrite] at hop
    | write env a b v =>
      have h1 := ih (sdcardWriteData cfg env a b v t).1
        (by rw [write_fileSDCard]; exact ht) hrest
      rw [write_fs_of_empty_handle cfg env a b v t ht, write_useSDCard] at h1
      refine ⟨by simpa [run, step] using h1.1, by simpa [run, step] using h1.2.1, ?_⟩
      intro hu
      have h2 := h1.2.2 hu
      rw [write_counter, hu] at h2
      simp only [run, step, callsOf, List.map_cons]
      rw [write_inactive cfg env a b v t hu] at h2 ⊢
      exact ⟨by simpa using h2.1, by simpa using h2.2⟩

theorem roundTenths_nearest (num den : Nat) (hd : 0 < den) :
    2 * (10 * num - roundTenths num den * den) ≤ den ∧
    2 * (roundTenths num den * den - 10 * num) ≤ den := by
  have hdm := Nat.div_add_mod (10 * num) den
  have hlt := Nat.mod_lt (10 * num) hd
  have hmul : (10 * num / den + 1) * den = den * (10 * num / den) + den := by ring
  have hmul2 : (10 * num / den) * den = den * (10 * num / den) := by ring
  simp only [roundTenths]
  split_ifs with h
  · rw [hmul]
    rcases h with h | h <;> omega
  · rw [hmul2]
    have : ¬ 2 * (10 * num % den) > den := fun hh => h (Or.inl hh)
    omega

theorem roundTenths_le (num den : Nat) : roundTenths num den ≤ 10 * num / den + 1 := by
  simp only [roundTenths]
  split_ifs <;> omega

theorem oneDecimal_length (t : Nat) (h : t < 10 ^ 8) : (oneDecimal t).length ≤ 9 := by
  have h1 := toString_length_le (t / 10) 7 (by decide) (by norm_num at h ⊢; omega)
  have h2 := toString_length_le (t % 10) 1 (by decide) (by norm_num; omega)
  have e : (".").length = 1 := rfl
  simp only [oneDecimal, String.length_append, e]
  omega

theorem padLeft_length (w : Nat) (s : String) :
    (padLeft w s).length = (w - s.length) + s.length := by
  simp only [padLeft, String.length_append]
  have e : (String.mk (List.replicate (w - s.length) ' ')).length = w - s.length :=
    List.length_replicate _ _
  rw [e]

theorem fmtFixed1_of_nonneg (x : FloatVal) (h : x.neg = false) :
    fmtFixed1 x = oneDecimal (roundTenths x.num x.den) := by
  simp [fmtFixed1, oneDecimal, h]

theorem roundTenths_lt (x : FloatVal) (h : x.num < 1000000 * x.den) :
    roundTenths x.num x.den < 10 ^ 8 := by
  have hd : 0 < x.den := by
    rcases Nat.eq_zero_or_pos x.den with h0 | h0
    · rw [h0] at h; omega
    · exact h0
  have hq : 10 * x.num / x.den < 10000000 := by
    rw [Nat.div_lt_iff_lt_mul hd]
    omega
  have := roundTenths_le x.num x.den
  norm_num
  omega

theorem run_fileSDCard (cfg : Config) (ops : List Op) : ∀ s : State,
    s.fileSDCard = none → (run cfg s ops).fileSDCard = none := by
  induction ops with
  | nil => intro s h; simpa [run] using h
  | cons op ops ih =>
    intro s h
    cases op with
    | init create env => exact ih _ (by simp [step, init_fileSDCard, h])
    | write env a b v => exact ih _ (by simp [step, write_fileSDCard, h])
    | close => exact ih _ (by simp [step, (close_fields s).2.2.1])

/-! ## Theorems -/

/-- C2: `sdcard_init` returns true exactly when the mount succeeded and the
reported card type is not "none"; when moreover the open failed it still
returns true and leaves `useSDCard` false; the `create` argument changes
neither the result nor the state nor the calls issued. -/
theorem sdcard_init_result (cfg : Config) (create : Bool) (env : InitEnv) (s : State) :
    ((sdcard_init cfg create env s).1 = true ↔
      (env.mount = true ∧ env.cardType ≠ sdcard_type_t.CARD_NONE)) ∧
    (env.mount = true ∧ env.cardType ≠ sdcard_type_t.CARD_NONE ∧ env.openOk = false →
      (sdcard_init cfg create env s).1 = true ∧
      (sdcard_init cfg create env s).2.1.useSDCard = false) ∧
    sdcard_init cfg create env s = sdcard_init cfg (!create) env s := by
  refine ⟨?_, ?_, ?_⟩
  · unfold sdcard_init
    cases hm : env.mount <;> by_cases hc : env.cardType = sdcard_type_t.CARD_NONE <;>
      simp [hc]
  · rintro ⟨hm, hc, ho⟩
    simp [sdcard_init, openFile, MYSD_open, hm, hc, ho]
  · rfl

/-- Witness for C2: a mount that succeeds on a standard-capacity card whose
file cannot be opened. -/
theorem sdcard_init_result_witness :
    (sdcard_init baseConfig true openFailsInit (initialState emptyCard)).1 = true ∧
    (sdcard_init baseConfig true openFailsInit (initialState emptyCard)).2.1.useSDCard
      = false :=
  (sdcard_init_result baseConfig true openFailsInit (initialState emptyCard)).2.1
    ⟨rfl, by decide, rfl⟩

/-- C1 (evaluation at the failing input): when the mount succeeds and the card
type is "none", `sdcard_init` returns false but `useSDCard` stays true, and
the next `sdcardWriteData` prints a record and advances the counter; after a
failed mount or a failed open the same call issues nothing. -/
theorem card_none_leaves_logging_active :
    (sdcardWriteData baseConfig sampleWriteEnv 3 1 0
      (sdcard_init baseConfig true noCardInit (initialState emptyCard)).2.1).2 = [] ∧
    (sdcardWriteData baseConfig sampleWriteEnv 3 1 0
      (sdcard_init baseConfig true openFailsInit (initialState emptyCard)).2.1).2 = [] ∧
    (sdcard_init baseConfig true cardNoneInit (initialState emptyCard)).1 = false ∧
    (sdcard_init baseConfig true cardNoneInit (initialState emptyCard)).2.1.useSDCard
      = true ∧
    (sdcardWriteData baseConfig sampleWriteEnv 3 1 0
      (sdcard_init baseConfig true cardNoneInit (initialState emptyCard)).2.1).2 =
        [Call.print "2024-01-01T00:00:00Z", Call.print ",3,1", Call.println] ∧
    (sdcardWriteData baseConfig sampleWriteEnv 3 1 0
      (sdcard_init baseConfig true cardNoneInit (initialState emptyCard)).2.1).1.counterWrites
        = 1 := by
  decide

/-- C3 (evaluation at the failing input): over every sequence of interface
calls `fileSDCard` stays the empty handle, since the `File` that `MYSD.open`
returns is never assigned to it; after a successful init on an empty card, one
record and a close, the file at the configured path exists but is empty:
neither the header nor the record reached it. -/
theorem header_and_record_never_reach_file :
    (∀ (cfg : Config) (fs : FileSys) (ops : List Op),
      (run cfg (initialState fs) ops).fileSDCard = none) ∧
    (sdcard_init baseConfig true goodInit (initialState emptyCard)).1 = true ∧
    (sdcard_init baseConfig true goodInit (initialState emptyCard)).2.1.useSDCard = true ∧
    (sdcard_init baseConfig true goodInit (initialState emptyCard)).2.1.fileSDCard = none ∧
    (sdcardWriteData baseConfig sampleWriteEnv 2 0 0
      (sdcard_init baseConfig true goodInit (initialState emptyCard)).2.1).2 =
        [Call.print "2024-01-01T00:00:00Z", Call.print ",2,0", Call.println] ∧
    (run baseConfig (initialState emptyCard)
      [Op.init true goodInit, Op.write sampleWriteEnv 2 0 0, Op.close]).fs "/paxcount.csv"
        = some "" :=
  ⟨fun cfg fs ops => run_fileSDCard cfg ops (initialState fs) rfl, by decide⟩

/-- C6 (evaluation at the failing input): on a card whose log already holds a
header and a record, a successful init opens the file with `FILE_WRITE`, not
`FILE_APPEND`, and the earlier content is gone afterwards. -/
theorem init_discards_existing_log :
    usedCard "/paxcount.csv" =
      some "timestamp,wifi_fail,ble_fail\r\n2023-12-31T23:59:00Z,1,1\r\n" ∧
    (sdcard_init baseConfig true goodInit (initialState usedCard)).1 = true ∧
    (sdcard_init baseConfig true goodInit (initialState usedCard)).2.2 =
      [Call.sdBegin, Call.sdOpen "/paxcount.csv" OpenMode.FILE_WRITE,
       Call.print "timestamp,wifi_fail,ble_fail", Call.println] ∧
    (sdcard_init baseConfig true goodInit (initialState usedCard)).2.1.fs "/paxcount.csv"
      = some "" ∧
    (run baseConfig (initialState usedCard)
      [Op.init true goodInit, Op.write sampleWriteEnv 2 0 0]).fs "/paxcount.csv"
        = some "" := by
  decide

/-- C4: with logging active and the particulate column not compiled in, for
arguments in 0..65535 and a UTC time whose year is in 0..9999, one
`sdcardWriteData` call prints the untruncated timestamp, then "," wifi ","
ble in decimal, then "," voltage exactly when the voltage column is compiled
in, then one line break (followed by a flush when the counter reaches 3). The
timestamp has 20 characters, has the form `YYYY-MM-DDTHH:MM:SSZ`, and read
back as such it gives the year, month, day, hour, minute and second of the
current UTC time, each in its own place. -/
theorem record_line_format (cfg : Config) (env : WriteEnv) (noWifi noBle voltage : Nat)
    (s : State) (hactive : s.useSDCard = true) (hsds : cfg.HAS_SDS011 = false)
    (hw : noWifi ≤ 65535) (hb : noBle ≤ 65535) (hv : voltage ≤ 65535)
    (htm : env.tt.valid) (hy0 : 0 ≤ env.tt.tm_year + 1900)
    (hy1 : env.tt.tm_year + 1900 ≤ 9999) :
    (sdcardWriteData cfg env noWifi noBle voltage s).2 =
      [Call.print (fmtTimestamp env.tt),
       Call.print ("," ++ toString noWifi ++ "," ++ toString noBle)] ++
      (if cfg.hasVoltage then [Call.print ("," ++ toString voltage)] else []) ++
      [Call.println] ++
      (if s.counterWrites + 1 > 2 then [Call.flush] else []) ∧
    isTimestamp (fmtTimestamp env.tt) = true ∧
    (fmtTimestamp env.tt).length = 20 ∧
    decodeTimestamp (fmtTimestamp env.tt) =
      some ((env.tt.tm_year + 1900).toNat, env.tt.tm_mon + 1, env.tt.tm_mday,
        env.tt.tm_hour, env.tt.tm_min, env.tt.tm_sec) ∧
    decimalValue (toString noWifi).data = noWifi ∧
    decimalValue (toString noBle).data = noBle ∧
    decimalValue (toString voltage).data = voltage := by
  obtain ⟨hpat, hlen, hdec⟩ := fmtTimestamp_isTimestamp env.tt htm hy0 hy1
  refine ⟨?_, hpat, hlen, hdec, toString_value _, toString_value _, toString_value _⟩
  have hts : strftime 21 env.tt = fmtTimestamp env.tt := by
    simp [strftime, hlen]
  have lw := toString_length_le noWifi 5 (by decide) (by norm_num; omega)
  have lb := toString_length_le noBle 5 (by decide) (by norm_num; omega)
  have lv := toString_length_le voltage 5 (by decide) (by norm_num; omega)
  have h1 : snprintf 21 ("," ++ toString noWifi ++ "," ++ toString noBle)
      = "," ++ toString noWifi ++ "," ++ toString noBle := by
    apply snprintf_of_fits
    have e1 : (",").length = 1 := rfl
    simp only [String.length_append, e1]
    omega
  have h2 : snprintf 21 ("," ++ toString voltage) = "," ++ toString voltage := by
    apply snprintf_of_fits
    have e1 : (",").length = 1 := rfl
    simp only [String.length_append, e1]
    omega
  rw [write_calls cfg env noWifi noBle voltage s hactive, hsds, hts,
    Nat.mod_eq_of_lt (by omega : noWifi < 65536), Nat.mod_eq_of_lt (by omega : noBle < 65536),
    Nat.mod_eq_of_lt (by omega : voltage < 65536), h1, h2]
  simp

/-- Witness for C4: the record 2, 10, 3700 mV written at 2024-03-07T14:25:36Z
by a build with the voltage column, as third record since the last flush. -/
theorem record_line_format_witness :
    (sdcardWriteData voltageConfig instantWriteEnv 2 10 3700 activeState).2 =
      [Call.print "2024-03-07T14:25:36Z", Call.print ",2,10", Call.print ",3700",
       Call.println, Call.flush] ∧
    isTimestamp "2024-03-07T14:25:36Z" = true ∧
    ("2024-03-07T14:25:36Z").length = 20 ∧
    decodeTimestamp "2024-03-07T14:25:36Z" = some (2024, 3, 7, 14, 25, 36) ∧
    decimalValue ("2").data = 2 ∧
    decimalValue ("10").data = 10 ∧
    decimalValue ("3700").data = 3700 :=
  record_line_format voltageConfig instantWriteEnv 2 10 3700 activeState rfl rfl
    (by decide) (by decide) (by decide) (by decide) (by decide) (by decide)

/-- C10: the calls that one `sdcard_init` makes on the file handle are the
header line, once, when mount, card type and open all succeeded, and none
otherwise; the header line is the base text, the voltage text iff the voltage
column is compiled in, the particulate text iff that column is compiled in,
and one line break; a record line carries its voltage piece and its
particulate piece under the same two conditions. -/
theorem header_printed_once (cfg : Config) (create : Bool) (env : InitEnv) (s : State)
    (wenv : WriteEnv) (a b v : Nat) :
    (sdcard_init cfg create env s).2.2.filter isHandleCall =
      (if env.mount = true ∧ env.cardType ≠ sdcard_type_t.CARD_NONE ∧ env.openOk = true
        then headerCalls cfg else []) ∧
    printedText (headerCalls cfg) =
      cfg.SDCARD_FILE_HEADER ++
        (if cfg.hasVoltage then cfg.SDCARD_FILE_HEADER_VOLTAGE else "") ++
        (if cfg.HAS_SDS011 then cfg.SDCARD_FILE_HEADER_SDS011 else "") ++ "\r\n" ∧
    (headerCalls cfg).count Call.println = 1 ∧
    (sdcardWriteData cfg wenv a b v { s with useSDCard := true }).2.filter isPrintCall =
      [Call.print (strftime 21 wenv.tt),
       Call.print (snprintf 21 ("," ++ toString (a % 65536) ++ "," ++ toString (b % 65536)))] ++
      (if cfg.hasVoltage then [Call.print (snprintf 21 ("," ++ toString (v % 65536)))]
        else []) ++
      (if cfg.HAS_SDS011 then
        [Call.print (snprintf 21
          ("," ++ fmtFloat 5 wenv.sds.pm10 ++ "," ++ fmtFloat 4 wenv.sds.pm25))]
        else []) ++
      [Call.println] := by
  refine ⟨?_, ?_, ?_, ?_⟩
  · rw [init_calls]
    cases hm : env.mount <;> by_cases hc : env.cardType = sdcard_type_t.CARD_NONE <;>
      cases ho : env.openOk <;> cases hv : cfg.hasVoltage <;> cases hp : cfg.HAS_SDS011 <;>
      simp [headerCalls, hc, hv, hp, isHandleCall, List.filter_cons]
  · cases hv : cfg.hasVoltage <;> cases hp : cfg.HAS_SDS011 <;>
      simp [headerCalls, hv, hp, printedText, String.append_assoc]
  · cases hv : cfg.hasVoltage <;> cases hp : cfg.HAS_SDS011 <;>
      simp [headerCalls, hv, hp]
  · rw [write_calls cfg wenv a b v _ rfl]
    cases hv : cfg.hasVoltage <;> cases hp : cfg.HAS_SDS011 <;>
      by_cases hc : s.counterWrites + 1 > 2 <;>
      simp [hv, hp, hc, List.filter_cons, isPrintCall]

/-- C5: from the initial state, over every sequence of interface calls, the
`k`-th `sdcardWriteData` call that finds logging active flushes iff `k` is a
multiple of 3 and leaves the counter at `k mod 3`; the counter is in 0..2
after every call; a step brings a non-zero counter to 0 iff it is a flushing
`sdcardWriteData`; any three consecutive active calls hold exactly one
flush. -/
theorem flush_every_third_active_write (cfg : Config) (fs : FileSys) (ops : List Op) :
    activeWrites cfg (initialState fs) ops =
      (List.range (activeWrites cfg (initialState fs) ops).length).map
        (fun i => expectedObs (i + 1)) ∧
    (0 ≤ (run cfg (initialState fs) ops).counterWrites ∧
      (run cfg (initialState fs) ops).counterWrites ≤ 2) ∧
    (∀ op : Op,
      ((step cfg (run cfg (initialState fs) ops) op).1.counterWrites = 0 ∧
        (run cfg (initialState fs) ops).counterWrites ≠ 0) ↔
      (op.isWrite = true ∧ (run cfg (initialState fs) ops).useSDCard = true ∧
        Call.flush ∈ (step cfg (run cfg (initialState fs) ops) op).2)) ∧
    (∀ i, i + 3 ≤ (activeWrites cfg (initialState fs) ops).length →
      ∃ x y z, (activeWrites cfg (initialState fs) ops)[i]? = some x ∧
        (activeWrites cfg (initialState fs) ops)[i + 1]? = some y ∧
        (activeWrites cfg (initialState fs) ops)[i + 2]? = some z ∧
        [x.1, y.1, z.1].count true = 1) := by
  have hobs := activeWrites_from cfg ops (initialState fs) 0 (by simp [initialState])
  simp only [Nat.zero_add] at hobs
  have hrange := run_counter_range cfg ops (initialState fs) (by simp [initialState])
  refine ⟨hobs, hrange, ?_, ?_⟩
  · intro op
    generalize run cfg (initialState fs) ops = s at hrange
    cases op with
    | init create env => simp [step, init_counter, Op.isWrite]
    | close => simp [step, (close_fields s).2.1, Op.isWrite]
    | write env a b v =>
      cases hu : s.useSDCard with
      | false => simp [step, write_inactive cfg env a b v s hu, Op.isWrite, hu]
      | true =>
        simp only [step, write_counter, write_calls cfg env a b v s hu, hu, Op.isWrite]
        cases cfg.hasVoltage <;> cases cfg.HAS_SDS011 <;>
          by_cases h3 : s.counterWrites + 1 > 2 <;> simp [h3] <;> omega
  · intro i hi
    generalize activeWrites cfg (initialState fs) ops = obs at hobs hi
    have hget : ∀ j, j < obs.length → obs[j]? = some (expectedObs (j + 1)) := by
      intro j hj
      rw [hobs]
      simp [List.getElem?_map, List.getElem?_range, hj]
    refine ⟨_, _, _, hget i (by omega), hget (i + 1) (by omega), hget (i + 2) (by omega), ?_⟩
    simp only [expectedObs]
    have h3 : i % 3 = 0 ∨ i % 3 = 1 ∨ i % 3 = 2 := by omega
    rcases h3 with h | h | h
    · have e1 : (i + 1) % 3 = 1 := by omega
      have e2 : (i + 1 + 1) % 3 = 2 := by omega
      have e3 : (i + 2 + 1) % 3 = 0 := by omega
      simp [e1, e2, e3]
    · have e1 : (i + 1) % 3 = 2 := by omega
      have e2 : (i + 1 + 1) % 3 = 0 := by omega
      have e3 : (i + 2 + 1) % 3 = 1 := by omega
      simp [e1, e2, e3]
    · have e1 : (i + 1) % 3 = 0 := by omega
      have e2 : (i + 1 + 1) % 3 = 1 := by omega
      have e3 : (i + 2 + 1) % 3 = 2 := by omega
      simp [e1, e2, e3]

/-- Witness for C5: in a sequence with a close, a failed open and a re-init,
the second, third and fourth active `sdcardWriteData` calls hold exactly one
flush. -/
theorem flush_every_third_active_write_witness :
    ∃ x y z, (activeWrites baseConfig (initialState emptyCard) sampleOps)[1]? = some x ∧
      (activeWrites baseConfig (initialState emptyCard) sampleOps)[1 + 1]? = some y ∧
      (activeWrites baseConfig (initialState emptyCard) sampleOps)[1 + 2]? = some z ∧
      [x.1, y.1, z.1].count true = 1 :=
  (flush_every_third_active_write baseConfig emptyCard sampleOps).2.2.2 1 (by decide)

/-- C7 (counterexample): with the particulate column compiled in, the record
0, 0, 0 with PM10 = 12.3 and PM2.5 = 4.5 is printed as
`2024-01-01T00:00:00Z,0,0, 12.3, 4.5`: the readings are right-aligned in fields
of 5 and 4 characters, so the line does not end with `,12.3,4.5`. -/
theorem particulate_line_is_padded :
    printedText (sdcardWriteData sdsConfig sampleWriteEnv 0 0 0
      (sdcard_init sdsConfig true goodInit (initialState emptyCard)).2.1).2
        = "2024-01-01T00:00:00Z,0,0, 12.3, 4.5\r\n" ∧
    printedText (sdcardWriteData sdsConfig { tt := newYear2024, sds := decimalSds } 0 0 0
      (sdcard_init sdsConfig true goodInit (initialState emptyCard)).2.1).2
        = "2024-01-01T00:00:00Z,0,0, 12.3, 4.5\r\n" ∧
    ¬ (",12.3,4.5\r\n").data <:+
      (printedText (sdcardWriteData sdsConfig sampleWriteEnv 0 0 0
        (sdcard_init sdsConfig true goodInit (initialState emptyCard)).2.1).2).data := by
  decide

/-- C7 (amended): with the particulate column compiled in and logging active,
for non-negative readings below 1000000 the record line ends with ","
followed by PM10 rounded to the nearest tenth, shown with one decimal place
and right-aligned with blanks in a field of at least 5 characters, then ","
followed by PM2.5 likewise in a field of at least 4 characters, then the
line break; nothing is truncated. -/
theorem particulate_columns_padded (cfg : Config) (env : WriteEnv) (a b v : Nat) (s : State)
    (hactive : s.useSDCard = true) (hsds : cfg.HAS_SDS011 = true)
    (hn10 : env.sds.pm10.neg = false) (hr10 : env.sds.pm10.num < 1000000 * env.sds.pm10.den)
    (hn25 : env.sds.pm25.neg = false) (hr25 : env.sds.pm25.num < 1000000 * env.sds.pm25.den) :
    ∃ pre t10 t25, nearestTenths t10 env.sds.pm10 ∧ nearestTenths t25 env.sds.pm25 ∧
      printedText (sdcardWriteData cfg env a b v s).2 =
        pre ++ ("," ++ padLeft 5 (oneDecimal t10) ++ "," ++ padLeft 4 (oneDecimal t25)
          ++ "\r\n") := by
  have hd10 : 0 < env.sds.pm10.den := by
    rcases Nat.eq_zero_or_pos env.sds.pm10.den with h0 | h0
    · rw [h0] at hr10; omega
    · exact h0
  have hd25 : 0 < env.sds.pm25.den := by
    rcases Nat.eq_zero_or_pos env.sds.pm25.den with h0 | h0
    · rw [h0] at hr25; omega
    · exact h0
  have l10 := oneDecimal_length _ (roundTenths_lt _ hr10)
  have l25 := oneDecimal_length _ (roundTenths_lt _ hr25)
  have p10 := padLeft_length 5 (oneDecimal (roundTenths env.sds.pm10.num env.sds.pm10.den))
  have p25 := padLeft_length 4 (oneDecimal (roundTenths env.sds.pm25.num env.sds.pm25.den))
  have hfit : snprintf 21 ("," ++ fmtFloat 5 env.sds.pm10 ++ "," ++ fmtFloat 4 env.sds.pm25)
      = "," ++ padLeft 5 (oneDecimal (roundTenths env.sds.pm10.num env.sds.pm10.den)) ++ "," ++
          padLeft 4 (oneDecimal (roundTenths env.sds.pm25.num env.sds.pm25.den)) := by
    rw [fmtFloat, fmtFloat, fmtFixed1_of_nonneg _ hn10, fmtFixed1_of_nonneg _ hn25]
    apply snprintf_of_fits
    have e1 : (",").length = 1 := rfl
    simp only [String.length_append, e1, p10, p25]
    omega
  refine ⟨strftime 21 env.tt ++
      snprintf 21 ("," ++ toString (a % 65536) ++ "," ++ toString (b % 65536)) ++
      (if cfg.hasVoltage then snprintf 21 ("," ++ toString (v % 65536)) else ""),
    roundTenths env.sds.pm10.num env.sds.pm10.den,
    roundTenths env.sds.pm25.num env.sds.pm25.den,
    roundTenths_nearest _ _ hd10, roundTenths_nearest _ _ hd25, ?_⟩
  rw [write_calls cfg env a b v s hactive, hsds, hfit]
  cases cfg.hasVoltage <;> by_cases hc : s.counterWrites + 1 > 2 <;>
    simp [hc, printedText, String.append_assoc]

/-- Witness for C7 (amended): the readings 12.3 and 4.5 in a build with the
particulate column. -/
theorem particulate_columns_padded_witness :
    ∃ pre t10 t25, nearestTenths t10 sampleSds.pm10 ∧ nearestTenths t25 sampleSds.pm25 ∧
      printedText (sdcardWriteData sdsConfig sampleWriteEnv 0 0 0 activeState).2 =
        pre ++ ("," ++ padLeft 5 (oneDecimal t10) ++ "," ++ padLeft 4 (oneDecimal t25)
          ++ "\r\n") :=
  particulate_columns_padded sdsConfig sampleWriteEnv 0 0 0 activeState rfl rfl rfl
    (by decide) rfl (by decide)

/-- C8 (counterexample): after a successful init and a close, the next
`sdcardWriteData` still issues its print calls on the handle and moves the
counter from 0 to 1: it is not a no-op. -/
theorem write_after_close_not_noop :
    (sdcard_close (sdcard_init baseConfig true goodInit (initialState emptyCard)).2.1).1.counterWrites
      = 0 ∧
    (sdcardWriteData baseConfig sampleWriteEnv 2 0 0
      (sdcard_close (sdcard_init baseConfig true goodInit (initialState emptyCard)).2.1).1).2
        = [Call.print "2024-01-01T00:00:00Z", Call.print ",2,0", Call.println] ∧
    (sdcardWriteData baseConfig sampleWriteEnv 2 0 0
      (sdcard_close (sdcard_init baseConfig true goodInit
        (initialState emptyCard)).2.1).1).1.counterWrites = 1 ∧
    ¬ ((sdcardWriteData baseConfig sampleWriteEnv 2 0 0
        (sdcard_close (sdcard_init baseConfig true goodInit
          (initialState emptyCard)).2.1).1).2 = [] ∧
      (sdcardWriteData baseConfig sampleWriteEnv 2 0 0
        (sdcard_close (sdcard_init baseConfig true goodInit
          (initialState emptyCard)).2.1).1).1.counterWrites =
      (sdcard_close (sdcard_init baseConfig true goodInit
        (initialState emptyCard)).2.1).1.counterWrites) := by
  decide

/-- C8 (amended): `sdcard_close` issues flush and close on the handle, leaves
the handle empty and leaves `useSDCard`, the counter and the card as they
were. In every state, after a close followed by any number of
`sdcardWriteData` calls, the card's content is what it was before the close,
and one more `sdcardWriteData` leaves it so. That call issues nothing and
keeps the counter exactly when `useSDCard` was false before the close; when
it was true the call issues its prints and line break on the closed handle
(and a flush when the counter reaches 3) and advances the counter. -/
theorem writes_after_close (cfg : Config) (s : State) (ws : List Op)
    (env : WriteEnv) (a b v : Nat) (hws : ∀ op ∈ ws, op.isWrite = true) :
    (sdcard_close s).2 = [Call.flush, Call.close] ∧
    (sdcard_close s).1.fileSDCard = none ∧
    (sdcard_close s).1.useSDCard = s.useSDCard ∧
    (sdcard_close s).1.counterWrites = s.counterWrites ∧
    (sdcard_close s).1.fs = s.fs ∧
    (run cfg (sdcard_close s).1 ws).fs = s.fs ∧
    (run cfg (sdcard_close s).1 ws).useSDCard = s.useSDCard ∧
    (sdcardWriteData cfg env a b v (run cfg (sdcard_close s).1 ws)).1.fs = s.fs ∧
    (((sdcardWriteData cfg env a b v (run cfg (sdcard_close s).1 ws)).2 = [] ∧
      (sdcardWriteData cfg env a b v (run cfg (sdcard_close s).1 ws)).1.counterWrites =
        (run cfg (sdcard_close s).1 ws).counterWrites) ↔ s.useSDCard = false) ∧
    (sdcardWriteData cfg env a b v (run cfg (sdcard_close s).1 ws)).2 =
      (if s.useSDCard then
        [Call.print (strftime 21 env.tt),
         Call.print (snprintf 21 ("," ++ toString (a % 65536) ++ "," ++ toString (b % 65536)))]
        ++ (if cfg.hasVoltage then [Call.print (snprintf 21 ("," ++ toString (v % 65536)))]
          else []) ++
        (if cfg.HAS_SDS011 then
          [Call.print (snprintf 21
            ("," ++ fmtFloat 5 env.sds.pm10 ++ "," ++ fmtFloat 4 env.sds.pm25))]
          else []) ++
        [Call.println] ++
        (if (run cfg (sdcard_close s).1 ws).counterWrites + 1 > 2 then [Call.flush] else [])
       else []) ∧
    (sdcardWriteData cfg env a b v (run cfg (sdcard_close s).1 ws)).1.counterWrites =
      (if s.useSDCard then
        (if (run cfg (sdcard_close s).1 ws).counterWrites + 1 > 2 then 0
         else (run cfg (sdcard_close s).1 ws).counterWrites + 1)
       else (run cfg (sdcard_close s).1 ws).counterWrites) := by
  obtain ⟨hu, hc, hf, hfs, hcalls⟩ := close_fields s
  have h := run_writes_after_close cfg ws (sdcard_close s).1 hf hws
  have htf := run_fileSDCard cfg ws (sdcard_close s).1 hf
  rw [hfs, hu] at h
  obtain ⟨h1, h2, _⟩ := h
  generalize run cfg (sdcard_close s).1 ws = t at h1 h2 htf
  have hwfs : (sdcardWriteData cfg env a b v t).1.fs = s.fs := by
    rw [write_fs_of_empty_handle cfg env a b v t htf, h1]
  refine ⟨hcalls, hf, hu, hc, hfs, h1, h2, hwfs, ?_, ?_, ?_⟩
  · cases hs : s.useSDCard with
    | false => simp [write_inactive cfg env a b v t (h2.trans hs)]
    | true => simp [write_calls cfg env a b v t (h2.trans hs)]
  · cases hs : s.useSDCard with
    | false => simp [write_inactive cfg env a b v t (h2.trans hs)]
    | true => simp [write_calls cfg env a b v t (h2.trans hs)]
  · rw [write_counter, h2]

/-- Witness for C8 (amended): a state in which logging is active, the handle
refers to the log file and the counter is 1; after the close, two records
bring the counter to 0 with a flush, the third one brings it to 1, and the
log file still holds what it held before the close. -/
theorem writes_after_close_witness :
    (sdcard_close boundState).2 = [Call.flush, Call.close] ∧
    (sdcard_close boundState).1.fileSDCard = none ∧
    (sdcard_close boundState).1.useSDCard = true ∧
    (sdcard_close boundState).1.counterWrites = 1 ∧
    (sdcard_close boundState).1.fs = boundState.fs ∧
    (run baseConfig (sdcard_close boundState).1 twoWrites).fs = boundState.fs ∧
    (run baseConfig (sdcard_close boundState).1 twoWrites).useSDCard = true ∧
    (sdcardWriteData baseConfig instantWriteEnv 7 3 0
      (run baseConfig (sdcard_close boundState).1 twoWrites)).1.fs = boundState.fs ∧
    (((sdcardWriteData baseConfig instantWriteEnv 7 3 0
        (run baseConfig (sdcard_close boundState).1 twoWrites)).2 = [] ∧
      (sdcardWriteData baseConfig instantWriteEnv 7 3 0
        (run baseConfig (sdcard_close boundState).1 twoWrites)).1.counterWrites =
        (run baseConfig (sdcard_close boundState).1 twoWrites).counterWrites) ↔
      boundState.useSDCard = false) ∧
    (sdcardWriteData baseConfig instantWriteEnv 7 3 0
      (run baseConfig (sdcard_close boundState).1 twoWrites)).2 =
      [Call.print "2024-03-07T14:25:36Z", Call.print ",7,3", Call.println] ∧
    (sdcardWriteData baseConfig instantWriteEnv 7 3 0
      (run baseConfig (sdcard_close boundState).1 twoWrites)).1.counterWrites = 1 :=
  writes_after_close baseConfig boundState twoWrites instantWriteEnv 7 3 0 (by decide)

/-- C9 (counterexample): init, one record, close, init again; of the three
`sdcardWriteData` calls that follow the second init, the second one flushes
and the third one does not. -/
theorem flush_after_reinit_is_second :
    (sdcard_init baseConfig true goodInit
      (run baseConfig (initialState emptyCard)
        [Op.init true goodInit, Op.write sampleWriteEnv 2 0 0, Op.close])).1 = true ∧
    (callsOf baseConfig
      (run baseConfig (initialState emptyCard)
        [Op.init true goodInit, Op.write sampleWriteEnv 2 0 0, Op.close,
         Op.init true goodInit])
      threeWrites).map flushCount = [0, 1, 0] ∧
    ¬ (callsOf baseConfig
      (run baseConfig (initialState emptyCard)
        [Op.init true goodInit, Op.write sampleWriteEnv 2 0 0, Op.close,
         Op.init true goodInit])
      threeWrites).map flushCount = [0, 0, 1] := by
  decide

/-- C9 (amended): after a successful init in any reachable state, exactly one
of the three `sdcardWriteData` calls that follow flushes; it is the third when
the counter is 0 at the init, the second when it is 1, the first when it is 2
(init does not reset the counter). -/
theorem flush_position_after_init (cfg : Config) (fs : FileSys) (ops : List Op)
    (create : Bool) (env : InitEnv) (e1 e2 e3 : WriteEnv)
    (a1 b1 v1 a2 b2 v2 a3 b3 v3 : Nat)
    (hm : env.mount = true) (_hc : env.cardType ≠ sdcard_type_t.CARD_NONE)
    (ho : env.openOk = true) :
    (callsOf cfg (sdcard_init cfg create env (run cfg (initialState fs) ops)).2.1
      [Op.write e1 a1 b1 v1, Op.write e2 a2 b2 v2, Op.write e3 a3 b3 v3]).map flushCount =
      (if (run cfg (initialState fs) ops).counterWrites = 0 then [0, 0, 1]
       else if (run cfg (initialState fs) ops).counterWrites = 1 then [0, 1, 0]
       else [1, 0, 0]) ∧
    (sdcard_init cfg create env (run cfg (initialState fs) ops)).2.1.counterWrites =
      (run cfg (initialState fs) ops).counterWrites := by
  have hrange := run_counter_range cfg ops (initialState fs) (by simp [initialState])
  generalize run cfg (initialState fs) ops = s at hrange
  have hu : (sdcard_init cfg create env s).2.1.useSDCard = true := by
    rw [init_useSDCard]; simp [hm, ho]
  have hcnt := init_counter cfg create env s
  refine ⟨?_, hcnt⟩
  generalize (sdcard_init cfg create env s).2.1 = s0 at hu hcnt
  have u1 : (sdcardWriteData cfg e1 a1 b1 v1 s0).1.useSDCard = true := by
    rw [write_useSDCard]; exact hu
  have u2 : (sdcardWriteData cfg e2 a2 b2 v2 (sdcardWriteData cfg e1 a1 b1 v1 s0).1).1.useSDCard
      = true := by
    rw [write_useSDCard]; exact u1
  simp only [callsOf, step, List.map_cons, List.map_nil,
    write_flushCount cfg e1 a1 b1 v1 s0 hu, write_flushCount cfg e2 a2 b2 v2 _ u1,
    write_flushCount cfg e3 a3 b3 v3 _ u2, write_counter, hu, u1, if_true, hcnt]
  have h3 : s.counterWrites = 0 ∨ s.counterWrites = 1 ∨ s.counterWrites = 2 := by omega
  rcases h3 with h | h | h <;> simp [h]

/-- Witness for C9 (amended): a re-init after one record and a close. -/
theorem flush_position_after_init_witness :
    (callsOf baseConfig (sdcard_init baseConfig true goodInit
        (run baseConfig (initialState emptyCard)
          [Op.init true goodInit, Op.write sampleWriteEnv 2 0 0, Op.close])).2.1
      [Op.write sampleWriteEnv 2 0 0, Op.write sampleWriteEnv 2 0 0,
       Op.write sampleWriteEnv 2 0 0]).map flushCount =
      (if (run baseConfig (initialState emptyCard)
          [Op.init true goodInit, Op.write sampleWriteEnv 2 0 0, Op.close]).counterWrites = 0
        then [0, 0, 1]
       else if (run baseConfig (initialState emptyCard)
          [Op.init true goodInit, Op.write sampleWriteEnv 2 0 0, Op.close]).counterWrites = 1
        then [0, 1, 0]
       else [1, 0, 0]) ∧
    (sdcard_init baseConfig true goodInit
        (run baseConfig (initialState emptyCard)
          [Op.init true goodInit, Op.write sampleWriteEnv 2 0 0, Op.close])).2.1.counterWrites =
      (run baseConfig (initialState emptyCard)
        [Op.init true goodInit, Op.write sampleWriteEnv 2 0 0, Op.close]).counterWrites :=
  flush_position_after_init baseConfig emptyCard
    [Op.init true goodInit, Op.write sampleWriteEnv 2 0 0, Op.close] true goodInit
    sampleWriteEnv sampleWriteEnv sampleWriteEnv 2 0 0 2 0 0 2 0 0 rfl (by decide) rfl

end Sdcard
